import Mathlib

/-!
Shallow embedding of the shipment-management backend (FastAPI + SQLAlchemy).

The embedding follows the source files:
  app/schemas/address.py   (CountryOneField, AddressIn and its resolver)
  app/schemas/shipment.py  (ShipmentIn, validate_carrier, check_if_not_in_future)
  app/crud/shipment.py     (retrive_shipments_from_db, create_shipment_in_db)
  app/routers/shipment.py  (GET /shipment/ and POST /shipment/ handlers)

Database rows are Lean structures; UUIDs are modelled as natural numbers
handed out by a fresh-id counter (make_uuid); SQL `SELECT ... .first()`
becomes `List.find?` over the table contents; a transaction is a function
from a store snapshot to either a new store (commit) or an error
(rollback, snapshot unchanged).  Decimal amounts, which no claim inspects,
are carried as integers.  Python's `re.match` (library code, not part of
this repository) is abstracted as a boolean parameter `m pattern string`
meaning "pattern matches string starting at position 0".
-/

deriving instance DecidableEq for Except

namespace ShipMgmt

/-- Weight units, app/choices.py `WeightUnit` (GRAM, KG, LB). -/
inductive WeightUnit
  | gram
  | kg
  | lb
deriving DecidableEq

/-- Dimension units, app/choices.py `DimensionsUnit` (MM, CM, IN). -/
inductive DimensionsUnit
  | mm
  | cm
  | inch
deriving DecidableEq

/-- Row of the `countries` table, app/orm/models.py `Country`. -/
structure Country where
  id : Nat
  name : String
  code : String
  iso2 : String
  iso3 : String
deriving DecidableEq

/-- Row of the `states` table, app/orm/models.py `State`. -/
structure State where
  id : Nat
  name : String
  country_id : Nat
deriving DecidableEq

/-- Row of the `cities` table, app/orm/models.py `City`. -/
structure City where
  id : Nat
  name : String
  state_id : Nat
  country_id : Nat
deriving DecidableEq

/-- Row of the `carriers` table, app/orm/models.py `Carrier`.
`regex_tracking_number` is a JSONB mapping of label to regex pattern; only
its values are ever read (`.values()` in validate_carrier), so it is kept
as the list of patterns in iteration order. -/
structure Carrier where
  id : Nat
  name : String
  regex_tracking_number : List String
deriving DecidableEq

/-- The reference tables the validation pipeline reads. -/
structure DB where
  countries : List Country
  states : List State
  cities : List City
  carriers : List Carrier
deriving DecidableEq

/-- Python `datetime`: a wall-clock reading (seconds) plus an optional
UTC offset (seconds); `tz = none` is a naive datetime. -/
structure PyDatetime where
  wall : Int
  tz : Option Int
deriving DecidableEq

/-- The absolute instant an aware datetime denotes; naive datetimes are
compared via this only after a tzinfo replacement. -/
def PyDatetime.instant (d : PyDatetime) : Int :=
  d.wall - d.tz.getD 0

/-- Python `d.replace(tzinfo=timezone.utc)`: same wall clock, UTC offset. -/
def PyDatetime.replaceTzUtc (d : PyDatetime) : PyDatetime :=
  { d with tz := some 0 }

/-- Python `datetime.now(timezone.utc)` at current instant `now`. -/
def nowUtc (now : Int) : PyDatetime :=
  { wall := now, tz := some 0 }

/-- Errors raised by the address resolver, app/exceptions/address.py.
`typeErrorNoSelector` stands for the Python `TypeError` that unpacking
`get_search_params() = None` would raise; it is unreachable for inputs
that passed the `CountryOneField` model validation. -/
inductive AddressError
  | countryNotFound (value : String)
  | stateNotFound (name : String)
  | cityNotFound (name : String)
  | stateCountryMismatch (state country : String)
  | cityStateMismatch (city state : String)
  | cityCountryMismatch (city country : String)
  | countryParametr
  | typeErrorNoSelector
deriving DecidableEq

/-- The exception classes of app/exceptions/shipment.py.  Note that
`CarrierNotFoundError.__init__` passes `detail={ {...} }` — a set literal
holding a dict, which is unhashable — so constructing that exception
raises `TypeError` at runtime; the `carrierNotFound` value is therefore
never actually produced by the program (see `validate_carrier`). -/
inductive ShipmentError
  | carrierNotFound (name : String)
  | shipmentNumberMismatch (carrier number : String)
  | shipmentDate
deriving DecidableEq

/-- Python runtime errors that escape the POST pipeline uncaught:
`typeError` is the `TypeError: unhashable type` raised by constructing
`CarrierNotFoundError` (exceptions/shipment.py 16-21, `detail` is a set
holding a dict); `attributeError` is raised by evaluating `x.name` on an
exception object in the gathered carriers list (crud/shipment.py
163-165, HTTPException has no `name` attribute); `valueError` is the
explicit `raise ValueError(...)` of crud/shipment.py 166-169. -/
inductive PyError
  | typeError
  | attributeError
  | valueError (carrierName : String)
deriving DecidableEq

/-- The four optional search fields of `CountryOneField`,
app/schemas/address.py, in declaration order. -/
inductive CountryField
  | name
  | code
  | iso2
  | iso3
deriving DecidableEq

/-- Input schema `CountryOneField`, app/schemas/address.py lines 49-117. -/
structure CountryOneField where
  name : Option String
  code : Option String
  iso2 : Option String
  iso3 : Option String
deriving DecidableEq

/-- Python truthiness of an optional string: `None` and `""` are falsy. -/
def truthy : Option String → Bool
  | none => false
  | some s => decide (s ≠ "")

/-- Python `str.upper()` on the ASCII country codes (the iso2/iso3 fields
are constrained by pydantic to `[A-Za-z]` letters, for which `upper` is
the character-wise ASCII uppercase). -/
def py_upper (s : String) : String :=
  String.mk (s.data.map Char.toUpper)

/-- Field validator `uppercase_country_code` on `iso2` and `iso3`
(mode="before"): `value.upper() if value else None`, address.py 90-94. -/
def uppercase_country_code (c : CountryOneField) : CountryOneField :=
  let up : Option String → Option String := fun v =>
    match v with
    | none => none
    | some s => if s = "" then none else some (py_upper s)
  { c with iso2 := up c.iso2, iso3 := up c.iso3 }

/-- Model validator `check_if_no_search_params`, address.py 96-106:
raises `CountryParametrError` when no model field is truthy. -/
def check_if_no_search_params (c : CountryOneField) :
    Except AddressError CountryOneField :=
  if truthy c.name || truthy c.code || truthy c.iso2 || truthy c.iso3 then
    .ok c
  else
    .error .countryParametr

/-- The full pydantic validation pipeline of `CountryOneField`: the
before-validator uppercases iso2/iso3, then the model validator checks
that some search field is present. -/
def validateCountryOneField (c : CountryOneField) :
    Except AddressError CountryOneField :=
  check_if_no_search_params (uppercase_country_code c)

/-- First truthy (field, value) pair of an association list; mirrors
iterating over `model_dump().items()` in field-declaration order. -/
def first_truthy : List (CountryField × Option String) →
    Option (CountryField × String)
  | [] => none
  | (f, v) :: rest =>
    match v with
    | some s => if s ≠ "" then some (f, s) else first_truthy rest
    | none => first_truthy rest

/-- Method `get_search_params`, address.py 108-117: the first truthy field
in the order name, code, iso2, iso3; `None` when every field is falsy
(Python falls through the loop and returns `None`). -/
def get_search_params (c : CountryOneField) : Option (CountryField × String) :=
  first_truthy [(.name, c.name), (.code, c.code), (.iso2, c.iso2), (.iso3, c.iso3)]

/-- Projection `getattr(Country, field)` used by the resolver's filter. -/
def countryField (f : CountryField) (c : Country) : String :=
  match f with
  | .name => c.name
  | .code => c.code
  | .iso2 => c.iso2
  | .iso3 => c.iso3

/-- Country query of the resolver, address.py 259-262:
`select(Country).filter(getattr(Country, field) == value)` then `.first()`. -/
def lookupCountry (db : DB) (f : CountryField) (v : String) : Option Country :=
  db.countries.find? (fun c => countryField f c == v)

/-- State query of the resolver, address.py 267-270:
`select(State).filter_by(name=state_name, country_id=cid)` then `.first()`. -/
def lookupState (db : DB) (name : String) (cid : Nat) : Option State :=
  db.states.find? (fun s => s.name == name && s.country_id == cid)

/-- City query of the resolver, address.py 277-282:
`select(City).filter_by(name=city_name, state_id=sid, country_id=cid)`
then `.first()`. -/
def lookupCity (db : DB) (name : String) (sid cid : Nat) : Option City :=
  db.cities.find? (fun c => c.name == name && c.state_id == sid && c.country_id == cid)

/-- Input schema `PackageIn`, app/schemas/shipment.py 25-85 (numeric
bounds enforced by pydantic are not re-modelled; amounts are integers). -/
structure PackageIn where
  weight : Int
  weight_unit : WeightUnit
  length : Int
  width : Int
  height : Int
  dimensions_unit : DimensionsUnit
deriving DecidableEq

/-- Input schema `AddressIn`, app/schemas/address.py 174-236. -/
structure AddressIn where
  postal_code : String
  address_line_1 : String
  address_line_2 : Option String
  city : String
  state : String
  country : CountryOneField
deriving DecidableEq

/-- Input schema `ShipmentIn`, app/schemas/shipment.py 117-188. -/
structure ShipmentIn where
  shipment_number : String
  shipment_date : PyDatetime
  price : Int
  currency : String
  total_weight : Int
  total_weight_unit : WeightUnit
  carrier : String
  address : AddressIn
  packages : List PackageIn
deriving DecidableEq

/-- Result schema `AddressId`, app/schemas/address.py 157-171: the parent
submission together with the resolved foreign keys. -/
structure AddressId where
  shipment : ShipmentIn
  city_id : Nat
  state_id : Nat
  country_id : Nat
deriving DecidableEq

/-- Method `AddressIn.check_if_country_state_city_exists`, address.py
238-294, translated clause by clause: country lookup by the selected
field, then state lookup by (name, country_id), then city lookup by
(name, state_id, country_id), with the source's mismatch re-checks kept
verbatim after each successful lookup. -/
def check_if_country_state_city_exists (db : DB) (a : AddressIn)
    (parent : ShipmentIn) : Except AddressError AddressId :=
  match get_search_params a.country with
  | none => .error .typeErrorNoSelector
  | some (field, value) =>
    match lookupCountry db field value with
    | none => .error (.countryNotFound value)
    | some country =>
      match lookupState db a.state country.id with
      | none => .error (.stateNotFound a.state)
      | some state =>
        if state.country_id ≠ country.id then
          .error (.stateCountryMismatch a.state country.name)
        else
          match lookupCity db a.city state.id country.id with
          | none => .error (.cityNotFound a.city)
          | some city =>
            if city.state_id ≠ state.id then
              .error (.cityStateMismatch a.city a.state)
            else if city.country_id ≠ country.id then
              .error (.cityCountryMismatch a.city country.name)
            else
              .ok { shipment := parent, city_id := city.id,
                    state_id := state.id, country_id := country.id }

/-- Country-resolution pipeline for a standalone selector: the
`CountryOneField` pydantic validation (uppercase then presence check)
followed by the country-lookup prefix of
`check_if_country_state_city_exists`. -/
def resolveCountry (db : DB) (c : CountryOneField) : Except AddressError Country :=
  match validateCountryOneField c with
  | .error e => .error e
  | .ok u =>
    match get_search_params u with
    | none => .error .typeErrorNoSelector
    | some (field, value) =>
      match lookupCountry db field value with
      | none => .error (.countryNotFound value)
      | some country => .ok country

/-- Recogniser: is this resolver outcome a `StateCountryMismatchError`? -/
def isStateCountryMismatch : Except AddressError AddressId → Bool
  | .error (.stateCountryMismatch _ _) => true
  | _ => false

/-- Recogniser: is this resolver outcome a `CityStateMismatchError`? -/
def isCityStateMismatch : Except AddressError AddressId → Bool
  | .error (.cityStateMismatch _ _) => true
  | _ => false

/-- Recogniser: is this resolver outcome a `CityCountryMismatchError`? -/
def isCityCountryMismatch : Except AddressError AddressId → Bool
  | .error (.cityCountryMismatch _ _) => true
  | _ => false

/-- Field validator `ShipmentIn.check_if_not_in_future`, shipment.py
190-209: raises `ShipmentDateError` only when the value is naive
(`tzinfo is None`) AND, reinterpreted as UTC, is later than now. -/
def check_if_not_in_future (now : Int) (v : PyDatetime) :
    Except ShipmentError PyDatetime :=
  if v.tz.isNone && decide (v.replaceTzUtc.instant > (nowUtc now).instant) then
    .error .shipmentDate
  else
    .ok v

/-- What one submission's slot in the gathered carrier-validation list
holds when no coroutine raised: the Carrier row, or the returned
`ShipmentNumberMismatchError` object travelling as a plain value
(modelled as the `.error` side of the inner `Except`). -/
abbrev CarrierSlot := Except ShipmentError Carrier

/-- Method `ShipmentIn.validate_carrier`, shipment.py 211-239: look the
carrier up by exact name (`.scalar()` takes the first row).  On a miss
the source executes `return CarrierNotFoundError(self.carrier)`, but
constructing that exception raises `TypeError` (its `detail` is a set
holding an unhashable dict, exceptions/shipment.py 16-21), so the
coroutine crashes — the outer `.error .typeError`.  Otherwise the
shipment number is tested against every pattern value with `re.match`
(abstracted as `m`); when no pattern matches, the mismatch error object
(whose constructor is well-formed) is RETURNED, not raised, and travels
through `asyncio.gather` as a value. -/
def validate_carrier (db : DB) (m : String → String → Bool)
    (carrierName shipmentNumber : String) : Except PyError CarrierSlot :=
  match db.carriers.find? (fun c => c.name == carrierName) with
  | none => .error .typeError
  | some carrier =>
    if carrier.regex_tracking_number.any (fun p => m p shipmentNumber) then
      .ok (.ok carrier)
    else
      .ok (.error (.shipmentNumberMismatch carrierName shipmentNumber))

/-- Recogniser: did carrier validation yield a `CarrierNotFoundError`
value?  (It never does: the constructor crashes first.) -/
def producesCarrierNotFound : Except PyError CarrierSlot → Bool
  | .ok (.error (.carrierNotFound _)) => true
  | _ => false

/-- Row of the `addresses` table, app/orm/models.py `Address`. -/
structure Address where
  id : Nat
  postal_code : String
  address_line_1 : String
  address_line_2 : Option String
  city_id : Nat
  state_id : Nat
  country_id : Nat
deriving DecidableEq

/-- Row of the `shipments` table, app/orm/models.py `Shipment`. -/
structure Shipment where
  id : Nat
  shipment_number : String
  shipment_date : PyDatetime
  price : Int
  currency : String
  total_weight : Int
  total_weight_unit : WeightUnit
  carrier_id : Nat
  address_id : Nat
deriving DecidableEq

/-- Row of the `packages` table, app/orm/models.py `Package`. -/
structure Package where
  id : Nat
  weight : Int
  weight_unit : WeightUnit
  length : Int
  width : Int
  height : Int
  dimensions_unit : DimensionsUnit
  shipment_id : Nat
deriving DecidableEq

/-- The mutable tables of the persistence layer. -/
structure Store where
  addresses : List Address
  shipments : List Shipment
  packages : List Package
deriving DecidableEq

/-- An empty persistence store. -/
def emptyStore : Store :=
  { addresses := [], shipments := [], packages := [] }

/-- Models `next((x for x in carriers if x.name == n), None)`,
crud/shipment.py 163-165: scan the gathered carrier-validation results in
order; touching `x.name` on an error element raises `AttributeError`. -/
def next_carrier : List CarrierSlot → String → Except PyError (Option Carrier)
  | [], _ => .ok none
  | .error _ :: _, _ => .error .attributeError
  | .ok c :: rest, n => if c.name == n then .ok (some c) else next_carrier rest n

/-- Package rows built from a list of `PackageIn`, each receiving a fresh
id on flush; returns the rows and the next fresh id. -/
def package_rows (shipment_id : Nat) : List PackageIn → Nat → List Package × Nat
  | [], f => ([], f)
  | p :: rest, f =>
    let r := package_rows shipment_id rest (f + 1)
    ({ id := f, weight := p.weight, weight_unit := p.weight_unit,
       length := p.length, width := p.width, height := p.height,
       dimensions_unit := p.dimensions_unit, shipment_id := shipment_id } :: r.1,
     r.2)

/-- Helper `create_packages`, crud/shipment.py 117-134: one `Package` row
per element of `shipment.packages`. -/
def create_packages (s : ShipmentIn) (shipment_id : Nat) (fresh : Nat) :
    List Package × Nat :=
  package_rows shipment_id s.packages fresh

/-- One iteration of the staging loop in `create_shipment_in_db`,
crud/shipment.py 153-184: stage the Address (flush assigns its id), find
the matching carrier-validation result (ValueError when absent), stage
the Shipment, stage its Packages.  Returns the staged store, the next
fresh id and the new shipment's id. -/
def stage_item (carriers : List CarrierSlot) (item : AddressId) (st : Store)
    (fresh : Nat) : Except PyError (Store × Nat × Nat) :=
  let a := item.shipment.address
  let address : Address :=
    { id := fresh, postal_code := a.postal_code,
      address_line_1 := a.address_line_1, address_line_2 := a.address_line_2,
      city_id := item.city_id, state_id := item.state_id,
      country_id := item.country_id }
  let st1 : Store := { st with addresses := st.addresses ++ [address] }
  match next_carrier carriers item.shipment.carrier with
  | .error e => .error e
  | .ok none => .error (.valueError item.shipment.carrier)
  | .ok (some carrier) =>
    let s := item.shipment
    let ship : Shipment :=
      { id := fresh + 1, shipment_number := s.shipment_number,
        shipment_date := s.shipment_date, price := s.price,
        currency := s.currency, total_weight := s.total_weight,
        total_weight_unit := s.total_weight_unit,
        carrier_id := carrier.id, address_id := address.id }
    let st2 : Store := { st1 with shipments := st1.shipments ++ [ship] }
    let r := create_packages s ship.id (fresh + 2)
    let st3 : Store := { st2 with packages := st2.packages ++ r.1 }
    .ok (st3, r.2, ship.id)

/-- The `for item in shipments` staging loop of `create_shipment_in_db`,
accumulating `shipments_id` in order; the first exception aborts. -/
def create_loop (carriers : List CarrierSlot) :
    List AddressId → Store → Nat → Except PyError (Store × Nat × List Nat)
  | [], st, fresh => .ok (st, fresh, [])
  | item :: rest, st, fresh =>
    match stage_item carriers item st fresh with
    | .error e => .error e
    | .ok (st', fresh', sid) =>
      match create_loop carriers rest st' fresh' with
      | .error e => .error e
      | .ok (st'', fresh'', ids) => .ok (st'', fresh'', sid :: ids)

/-- Function `create_shipment_in_db`, crud/shipment.py 137-189: the whole
staging loop runs inside one `async with session.begin()` transaction
with a single `session.commit()` at the end, so an escaping exception
rolls every staged row back (store unchanged) while success publishes the
staged store; afterwards the created shipments are re-read by id
(`.limit(100)`) and returned with `len(shipments_id)`. -/
def create_shipment_in_db (items : List AddressId) (carriers : List CarrierSlot)
    (st : Store) (fresh : Nat) :
    Store × Nat × Except PyError (List Shipment × Nat) :=
  match create_loop carriers items st fresh with
  | .error e => (st, fresh, .error e)
  | .ok (st', fresh', ids) =>
    let fetched := (st'.shipments.filter (fun s => ids.contains s.id)).take 100
    (st', fresh', .ok (fetched, ids.length))

/-- The `asyncio.gather` over `shipment.validate_carrier()` in the POST
handler, routers/shipment.py 122-124: the per-submission results in
order — or the raised exception (the TypeError from constructing
`CarrierNotFoundError`) that aborts the whole request. -/
def gather_carriers (db : DB) (m : String → String → Bool) :
    List ShipmentIn → Except PyError (List CarrierSlot)
  | [] => .ok []
  | s :: rest =>
    match validate_carrier db m s.carrier s.shipment_number with
    | .error e => .error e
    | .ok slot =>
      match gather_carriers db m rest with
      | .error e => .error e
      | .ok l => .ok (slot :: l)

/-- The `asyncio.gather` over
`shipment.address.check_if_country_state_city_exists(shipment)` in the
POST handler, routers/shipment.py 126-131: the results in submission
order, or the raised exception that aborts the whole request. -/
def collect_addresses (db : DB) :
    List ShipmentIn → Except AddressError (List AddressId)
  | [] => .ok []
  | s :: rest =>
    match check_if_country_state_city_exists db s.address s with
    | .error e => .error e
    | .ok aid =>
      match collect_addresses db rest with
      | .error e => .error e
      | .ok l => .ok (aid :: l)

/-- Responses of `POST /shipment/`, routers/shipment.py 106-150:
`fullSuccess` is the HTTP 201 body, `someFailed` the HTTP 200
JSONResponse of the `created_records != records_recieved_len` branch,
`httpError` an HTTPException raised during address validation (HTTP 4xx),
`serverError` an uncaught Python error (HTTP 500). -/
inductive PostResponse
  | fullSuccess (created : Nat) (records : List Shipment) (message : String)
  | someFailed (created : Nat) (message : String)
  | httpError (e : AddressError)
  | serverError (e : PyError)
deriving DecidableEq

/-- Handler `create_shipment`, routers/shipment.py 106-150: gather the
carrier validations first (mismatch error objects are collected as
values; a crashing coroutine aborts the request), then gather the
address checks (an exception aborts the request), persist via
`create_shipment_in_db`, then compare created count with received count
to choose between the 201 full-success and 200 partial-success bodies. -/
def create_shipment (db : DB) (m : String → String → Bool)
    (shipments : List ShipmentIn) (st : Store) (fresh : Nat) :
    Store × Nat × PostResponse :=
  match gather_carriers db m shipments with
  | .error e => (st, fresh, .serverError e)
  | .ok cariers =>
    match collect_addresses db shipments with
    | .error e => (st, fresh, .httpError e)
    | .ok result =>
      match create_shipment_in_db result cariers st fresh with
      | (st', fresh', .error e) => (st', fresh', .serverError e)
      | (st', fresh', .ok (result_lst, records_recieved_len)) =>
        let created_records := result_lst.length
        if created_records ≠ records_recieved_len then
          (st', fresh', .someFailed created_records "Some records were not created")
        else
          (st', fresh', .fullSuccess created_records result_lst "All records created")

/-- Query layer `retrive_shipments_from_db` (+ `shipments_get_request`),
crud/shipment.py 37-114, applied to the already-filtered, newest-first
row list: `offset = (page-1) * limit`, count query first, short-circuit
to `([], 0)` on a zero total, otherwise the offset/limit window together
with the total. -/
def retrive_shipments_from_db (records : List Shipment) (page limit : Nat) :
    List Shipment × Nat :=
  let offset := (page - 1) * limit
  let total := records.length
  if total = 0 then ([], 0)
  else ((records.drop offset).take limit, total)

/-- Responses of `GET /shipment/`, routers/shipment.py 22-102 (the
min/max-price 400 guard precedes the query and is orthogonal to the
pagination claims modelled here). -/
inductive ListResponse
  | ok (page : Nat) (next_page : Option Nat) (last_page limit total items : Nat)
      (records : List Shipment)
  | notFound (detail : String)
deriving DecidableEq

/-- Handler `retrive_shipments`, routers/shipment.py 69-102: query, then
404 on a zero total, 404 distinguishing `page > 1` when the window is
empty, else the 200 body with `next_page = page+1 if total > page*limit
else None` and `last_page = total // limit + 1`. -/
def retrive_shipments (records : List Shipment) (page limit : Nat) :
    ListResponse :=
  let r := retrive_shipments_from_db records page limit
  let shipments := r.1
  let total := r.2
  if total = 0 then
    .notFound "No shipments found."
  else if shipments.length = 0 then
    if page > 1 then .notFound "No more shipments found."
    else .notFound "No shipments found."
  else
    .ok page (if total > page * limit then some (page + 1) else none)
      (total / limit + 1) limit total shipments.length shipments

/-! Concrete reference data used to exercise the definitions, shaped like
the rows the seeding scripts (scripts/countries.py, scripts/carriers.py)
install. -/

/-- A sample country row. -/
def country0 : Country :=
  { id := 0, name := "United States", code := "840", iso2 := "US", iso3 := "USA" }

/-- A second sample country row. -/
def countryB : Country :=
  { id := 1, name := "Canada", code := "124", iso2 := "CA", iso3 := "CAN" }

/-- A state under `country0`. -/
def state0 : State := { id := 10, name := "New York", country_id := 0 }

/-- A state whose name exists only under `countryB`. -/
def stateB : State := { id := 11, name := "Bavaria", country_id := 1 }

/-- A city under `state0` and `country0`. -/
def city0 : City := { id := 20, name := "NYC", state_id := 10, country_id := 0 }

/-- A city under `state0` (state_id 10) but under `countryB` (country_id 1):
its state matches yet its country does not. -/
def cityB : City := { id := 21, name := "Troy", state_id := 10, country_id := 1 }

/-- A sample carrier whose single pattern is matched by `m0`. -/
def ups0 : Carrier := { id := 30, name := "ups", regex_tracking_number := ["P"] }

/-- The sample reference database. -/
def db0 : DB :=
  { countries := [country0, countryB], states := [state0, stateB],
    cities := [city0, cityB], carriers := [ups0] }

/-- A sample matcher standing in for `re.match`: pattern "P" matches every
string at position 0, any other pattern matches none. -/
def m0 : String → String → Bool := fun p _ => p == "P"

/-- A fully resolvable address input. -/
def a0 : AddressIn :=
  { postal_code := "12345", address_line_1 := "1234 Main St.",
    address_line_2 := none, city := "NYC", state := "New York",
    country := { name := some "United States", code := none,
                 iso2 := none, iso3 := none } }

/-- Address whose state name exists, but only under a different country. -/
def a_badState : AddressIn := { a0 with state := "Bavaria" }

/-- Address whose city name exists under the resolved state but under a
different country. -/
def a_badCity : AddressIn := { a0 with city := "Troy" }

/-- A sample package input. -/
def pkg0 : PackageIn :=
  { weight := 100, weight_unit := .gram, length := 1, width := 2,
    height := 3, dimensions_unit := .cm }

/-- A valid submission for carrier "ups". -/
def ship1 : ShipmentIn :=
  { shipment_number := "111", shipment_date := { wall := 0, tz := none },
    price := 5, currency := "USD", total_weight := 7,
    total_weight_unit := .kg, carrier := "ups", address := a0,
    packages := [pkg0] }

/-- A second valid submission for carrier "ups". -/
def ship2 : ShipmentIn := { ship1 with shipment_number := "222" }

/-- A submission naming a carrier absent from the registry. -/
def ship3 : ShipmentIn :=
  { ship1 with shipment_number := "333", carrier := "bogus" }

/-- A submission for "ups" whose shipment number matches no pattern under
the matcher `m1`. -/
def ship4 : ShipmentIn := { ship1 with shipment_number := "999" }

/-- A matcher under which pattern "P" matches every string except "999". -/
def m1 : String → String → Bool := fun p s => p == "P" && !(s == "999")

/-- A country selector supplying two fields at once (name and iso2). -/
def cf_two : CountryOneField :=
  { name := some "United States", code := none, iso2 := some "us", iso3 := none }

/-- A country selector with no truthy field (iso2 is the empty string,
which the before-validator turns into None). -/
def cf_none : CountryOneField :=
  { name := none, code := none, iso2 := some "", iso3 := none }

/-- The two-field selector after its before-validator has run. -/
def cf_up : CountryOneField :=
  { name := some "United States", code := none, iso2 := some "US", iso3 := none }

/-- Selector for `country0` by name. -/
def cf_name : CountryOneField :=
  { name := some "United States", code := none, iso2 := none, iso3 := none }

/-- Selector for `country0` by numeric code. -/
def cf_code : CountryOneField :=
  { name := none, code := some "840", iso2 := none, iso3 := none }

/-- Selector for `country0` by lowercase iso2. -/
def cf_iso2 : CountryOneField :=
  { name := none, code := none, iso2 := some "us", iso3 := none }

/-- Selector for `country0` by lowercase iso3. -/
def cf_iso3 : CountryOneField :=
  { name := none, code := none, iso2 := none, iso3 := some "usa" }

/-- A dummy persisted shipment row for pagination instances. -/
def dummyShip (i : Nat) : Shipment :=
  { id := i, shipment_number := "n", shipment_date := { wall := 0, tz := none },
    price := 1, currency := "USD", total_weight := 1,
    total_weight_unit := .kg, carrier_id := 30, address_id := 0 }

/-- Three persisted shipments. -/
def records3 : List Shipment := [dummyShip 0, dummyShip 1, dummyShip 2]

/-- One persisted shipment. -/
def records1 : List Shipment := [dummyShip 0]

/-- A resolved submission (as produced by the address checker) whose
carrier name has no match among the gathered carrier results. -/
def aid3 : AddressId :=
  { shipment := ship3, city_id := 20, state_id := 10, country_id := 0 }

/-- A resolved submission for the valid `ship1`. -/
def aid1 : AddressId :=
  { shipment := ship1, city_id := 20, state_id := 10, country_id := 0 }

/-- Address input naming a country absent from the reference data. -/
def a_noCountry : AddressIn :=
  { a0 with country := { name := some "Atlantis", code := none,
                         iso2 := none, iso3 := none } }

/-- The shipment row persisted for `ship1` when the store is empty and the
fresh-id counter starts at 0. -/
def row1 : Shipment :=
  { id := 1, shipment_number := "111", shipment_date := { wall := 0, tz := none },
    price := 5, currency := "USD", total_weight := 7, total_weight_unit := .kg,
    carrier_id := 30, address_id := 0 }

/-- The shipment row persisted for `ship1` in a full-success batch run
starting from fresh id 100. -/
def rowA : Shipment :=
  { id := 101, shipment_number := "111", shipment_date := { wall := 0, tz := none },
    price := 5, currency := "USD", total_weight := 7, total_weight_unit := .kg,
    carrier_id := 30, address_id := 100 }

/-- The shipment row persisted for `ship2` in the same run. -/
def rowB : Shipment :=
  { id := 104, shipment_number := "222", shipment_date := { wall := 0, tz := none },
    price := 5, currency := "USD", total_weight := 7, total_weight_unit := .kg,
    carrier_id := 30, address_id := 103 }

/-! Helper lemmas about the embedded queries and the staging loop. -/

/-- When an element satisfying the predicate exists and every satisfying
element equals `c`, the first-row query returns `c`. -/
theorem find_first_unique {α : Type _} {l : List α} {p : α → Bool} {c : α}
    (hmem : c ∈ l) (hp : p c = true)
    (hu : ∀ x ∈ l, p x = true → x = c) :
    l.find? p = some c := by
  have hs : (l.find? p).isSome := List.find?_isSome.mpr ⟨c, hmem, hp⟩
  obtain ⟨x, hx⟩ := Option.isSome_iff_exists.mp hs
  rw [hx, hu x (List.mem_of_find?_eq_some hx) (List.find?_some hx)]

/-- A state returned by the state query satisfies its filter. -/
theorem lookupState_eq {db : DB} {name : String} {cid : Nat} {s : State}
    (h : lookupState db name cid = some s) :
    s.name = name ∧ s.country_id = cid := by
  have hp := List.find?_some h
  simp only [Bool.and_eq_true, beq_iff_eq] at hp
  exact hp

/-- A city returned by the city query satisfies its filter. -/
theorem lookupCity_eq {db : DB} {name : String} {sid cid : Nat} {c : City}
    (h : lookupCity db name sid cid = some c) :
    c.name = name ∧ c.state_id = sid ∧ c.country_id = cid := by
  have hp := List.find?_some h
  simp only [Bool.and_eq_true, beq_iff_eq] at hp
  exact ⟨hp.1.1, hp.1.2, hp.2⟩

/-- Every outcome of the address resolver is a success, the TypeError
sentinel, or one of the three not-found errors: the two queries that can
fail after a successful parent lookup already filter by the parent ids,
so the mismatch re-checks behind them can never fire. -/
theorem check_result_shape (db : DB) (a : AddressIn) (parent : ShipmentIn) :
    (∃ aid, check_if_country_state_city_exists db a parent = .ok aid) ∨
    check_if_country_state_city_exists db a parent = .error .typeErrorNoSelector ∨
    (∃ v, check_if_country_state_city_exists db a parent = .error (.countryNotFound v)) ∨
    check_if_country_state_city_exists db a parent = .error (.stateNotFound a.state) ∨
    check_if_country_state_city_exists db a parent = .error (.cityNotFound a.city) := by
  cases hg : get_search_params a.country with
  | none =>
    right; left
    simp [check_if_country_state_city_exists, hg]
  | some fv =>
    obtain ⟨f, v⟩ := fv
    cases hc : lookupCountry db f v with
    | none =>
      right; right; left
      exact ⟨v, by simp [check_if_country_state_city_exists, hg, hc]⟩
    | some country =>
      cases hs : lookupState db a.state country.id with
      | none =>
        right; right; right; left
        simp [check_if_country_state_city_exists, hg, hc, hs]
      | some st =>
        have h1 := (lookupState_eq hs).2
        cases hcity : lookupCity db a.city st.id country.id with
        | none =>
          right; right; right; right
          simp [check_if_country_state_city_exists, hg, hc, hs, h1, hcity]
        | some ci =>
          have h2 := lookupCity_eq hcity
          left
          refine ⟨{ shipment := parent, city_id := ci.id, state_id := st.id,
                    country_id := country.id }, ?_⟩
          simp [check_if_country_state_city_exists, hg, hc, hs, h1, hcity,
            h2.2.1, h2.2.2]

/-- Package staging creates one row per package input. -/
theorem package_rows_length (sid : Nat) :
    ∀ (l : List PackageIn) (f : Nat), ((package_rows sid l f).1).length = l.length := by
  intro l
  induction l with
  | nil => intro f; rfl
  | cons p rest ih => intro f; simp [package_rows, ih]

/-- A successful staging step adds exactly one address, one shipment and
the item's packages to the staged store. -/
theorem stage_item_lengths {carriers : List CarrierSlot} {item : AddressId}
    {st : Store} {fresh : Nat} {st' : Store} {fresh' sid : Nat}
    (h : stage_item carriers item st fresh = .ok (st', fresh', sid)) :
    st'.addresses.length = st.addresses.length + 1 ∧
    st'.shipments.length = st.shipments.length + 1 ∧
    st'.packages.length = st.packages.length + item.shipment.packages.length := by
  unfold stage_item at h
  cases hnc : next_carrier carriers item.shipment.carrier with
  | error e => rw [hnc] at h; simp at h
  | ok oc =>
    cases oc with
    | none => rw [hnc] at h; simp at h
    | some carrier =>
      rw [hnc] at h
      simp only [Except.ok.injEq, Prod.mk.injEq] at h
      obtain ⟨hst, _, _⟩ := h
      subst hst
      refine ⟨?_, ?_, ?_⟩ <;>
        simp [List.length_append, create_packages, package_rows_length]

/-- A successful run of the staging loop grows the tables by exactly the
batch contents and returns one shipment id per item. -/
theorem create_loop_lengths (carriers : List CarrierSlot) :
    ∀ (items : List AddressId) (st : Store) (fresh : Nat) (st' : Store)
      (fresh' : Nat) (ids : List Nat),
      create_loop carriers items st fresh = .ok (st', fresh', ids) →
      st'.addresses.length = st.addresses.length + items.length ∧
      st'.shipments.length = st.shipments.length + items.length ∧
      st'.packages.length = st.packages.length +
        (items.map (fun it => it.shipment.packages.length)).sum ∧
      ids.length = items.length := by
  intro items
  induction items with
  | nil =>
    intro st fresh st' fresh' ids h
    simp only [create_loop, Except.ok.injEq, Prod.mk.injEq] at h
    obtain ⟨h1, _, h3⟩ := h
    subst h1; subst h3
    simp
  | cons item rest ih =>
    intro st fresh st' fresh' ids h
    simp only [create_loop] at h
    split at h
    · simp at h
    · rename_i st1 f1 sid hsi
      split at h
      · simp at h
      · rename_i st2 f2 ids2 hcl
        simp only [Except.ok.injEq, Prod.mk.injEq] at h
        obtain ⟨h1, _, h3⟩ := h
        subst h1; subst h3
        have A := stage_item_lengths hsi
        have B := ih st1 f1 st2 f2 ids2 hcl
        simp only [List.length_cons, List.map_cons, List.sum_cons]
        omega

/-- Ceiling division coincides with floor division on exact multiples. -/
theorem ceil_div_eq_of_dvd {t limit : Nat} (hl : 0 < limit) (hd : limit ∣ t) :
    (t + limit - 1) / limit = t / limit := by
  obtain ⟨k, rfl⟩ := hd
  rw [show limit * k + limit - 1 = limit * k + (limit - 1) by omega,
    Nat.mul_add_div hl, Nat.div_eq_of_lt (by omega),
    Nat.mul_div_cancel_left _ hl]
  omega

/-! Claims. -/

/-- C1: the claim says one bad submission never prevents the others from
succeeding (batch of 3 with 1 invalid carrier gives HTTP 200 with
created=2).  Evaluating the handler shows the opposite on both bad-item
paths: an unknown carrier makes `validate_carrier` crash with the
TypeError from constructing `CarrierNotFoundError`, which propagates
through the gather and kills the whole request before anything is
staged; a tracking-number mismatch puts the returned error object in the
gathered `cariers` list, where `next(x for x in carriers if x.name ==
...)` touches its missing `name` attribute and the AttributeError aborts
the single shared transaction.  Either way the store comes back
unchanged (the valid submissions are not persisted) and the response is
a server error, not the partial-success body.  A fully valid batch of 2,
by contrast, does return the 201 full-success body with created=2,
confirming only that half of the claim. -/
theorem c1_batch_isolation_eval :
    create_shipment db0 m0 [ship1, ship2, ship3] emptyStore 100 =
      (emptyStore, 100, .serverError .typeError) ∧
    create_shipment db0 m1 [ship4, ship1] emptyStore 100 =
      (emptyStore, 100, .serverError .attributeError) ∧
    (create_shipment db0 m0 [ship1, ship2] emptyStore 100).2.2 =
      .fullSuccess 2 [rowA, rowB] "All records created" := by decide

/-- C5: the claim says every shipment_date strictly in the future is
rejected regardless of timezone information.  The validator only checks
dates whose `tzinfo is None`: a timezone-aware datetime 100 seconds past
the current instant passes validation, while the same naive wall-clock
reading is rejected. -/
theorem c5_future_date_eval :
    check_if_not_in_future 0 { wall := 100, tz := some 0 } =
      .ok { wall := 100, tz := some 0 } ∧
    PyDatetime.instant { wall := 100, tz := some 0 } >
      PyDatetime.instant (nowUtc 0) ∧
    check_if_not_in_future 0 { wall := 100, tz := none } =
      .error .shipmentDate := by decide

/-- C2 counterexample: in `db0`, the state "Bavaria" exists but only
under Canada; resolving an address that names it under the United States
fails with `StateNotFoundError`, not `StateCountryMismatchError`; and the
city "Troy" exists under the resolved state but under Canada, and fails
with `CityNotFoundError`, not `CityCountryMismatchError`. -/
theorem c2_counterexample :
    check_if_country_state_city_exists db0 a_badState ship1 =
      .error (.stateNotFound "Bavaria") ∧
    isStateCountryMismatch
      (check_if_country_state_city_exists db0 a_badState ship1) = false ∧
    check_if_country_state_city_exists db0 a_badCity ship1 =
      .error (.cityNotFound "Troy") ∧
    isCityCountryMismatch
      (check_if_country_state_city_exists db0 a_badCity ship1) = false := by
  decide

/-- C2 (amended): hierarchy mismatches are reported as not-found errors,
never as mismatch errors: the state and city queries already filter by
the resolved parent ids, so a same-named state under a different country
surfaces as `StateNotFoundError` and a city under the resolved state but
a different country surfaces as `CityNotFoundError`; the three mismatch
branches of the resolver are unreachable for every database and input. -/
theorem c2_mismatch_reported_as_not_found (db : DB) (a : AddressIn)
    (parent : ShipmentIn) :
    isStateCountryMismatch (check_if_country_state_city_exists db a parent) = false ∧
    isCityStateMismatch (check_if_country_state_city_exists db a parent) = false ∧
    isCityCountryMismatch (check_if_country_state_city_exists db a parent) = false ∧
    (∀ f v country,
      get_search_params a.country = some (f, v) →
      lookupCountry db f v = some country →
      ((∃ s ∈ db.states, s.name = a.state ∧ s.country_id ≠ country.id) →
        lookupState db a.state country.id = none →
        check_if_country_state_city_exists db a parent =
          .error (.stateNotFound a.state)) ∧
      (∀ s, lookupState db a.state country.id = some s →
        (∃ ci ∈ db.cities, ci.name = a.city ∧ ci.state_id = s.id ∧
          ci.country_id ≠ country.id) →
        lookupCity db a.city s.id country.id = none →
        check_if_country_state_city_exists db a parent =
          .error (.cityNotFound a.city))) := by
  have shape := check_result_shape db a parent
  refine ⟨?_, ?_, ?_, ?_⟩
  · rcases shape with ⟨aid, h⟩ | h | ⟨v, h⟩ | h | h <;> rw [h] <;> rfl
  · rcases shape with ⟨aid, h⟩ | h | ⟨v, h⟩ | h | h <;> rw [h] <;> rfl
  · rcases shape with ⟨aid, h⟩ | h | ⟨v, h⟩ | h | h <;> rw [h] <;> rfl
  · intro f v country hg hc
    constructor
    · intro _ hs
      simp [check_if_country_state_city_exists, hg, hc, hs]
    · intro s hs _ hcity
      have h1 := (lookupState_eq hs).2
      simp [check_if_country_state_city_exists, hg, hc, hs, h1, hcity]

/-- C2 witness: the amended statement applied to the concrete database
`db0` and the two mismatch-shaped inputs. -/
theorem c2_amended_witness :
    check_if_country_state_city_exists db0 a_badState ship1 =
      .error (.stateNotFound "Bavaria") ∧
    check_if_country_state_city_exists db0 a_badCity ship1 =
      .error (.cityNotFound "Troy") := by
  constructor
  · exact ((c2_mismatch_reported_as_not_found db0 a_badState ship1).2.2.2
      .name "United States" country0 (by decide) (by decide)).1
      (by decide) (by decide)
  · exact ((c2_mismatch_reported_as_not_found db0 a_badCity ship1).2.2.2
      .name "United States" country0 (by decide) (by decide)).2
      state0 (by decide) (by decide) (by decide)

/-- C6: resolution error reporting is strict and sequential.  When the
country lookup fails, the result is the country error and does not depend
on the contents of the state and city tables (they are never consulted);
when the country resolves but the state lookup fails, the result is the
state error and does not depend on the contents of the city table. -/
theorem c6_sequential_resolution (db : DB) (a : AddressIn)
    (parent : ShipmentIn) (f : CountryField) (v : String)
    (hg : get_search_params a.country = some (f, v)) :
    (lookupCountry db f v = none →
      check_if_country_state_city_exists db a parent =
        .error (.countryNotFound v) ∧
      ∀ sts cts,
        check_if_country_state_city_exists
          { db with states := sts, cities := cts } a parent =
          .error (.countryNotFound v)) ∧
    (∀ country, lookupCountry db f v = some country →
      lookupState db a.state country.id = none →
      check_if_country_state_city_exists db a parent =
        .error (.stateNotFound a.state) ∧
      ∀ cts,
        check_if_country_state_city_exists { db with cities := cts } a parent =
          .error (.stateNotFound a.state)) := by
  constructor
  · intro hc
    constructor
    · simp [check_if_country_state_city_exists, hg, hc]
    · intro sts cts
      simp [check_if_country_state_city_exists, hg,
        show lookupCountry { db with states := sts, cities := cts } f v = none
          from hc]
  · intro country hc hs
    constructor
    · simp [check_if_country_state_city_exists, hg, hc, hs]
    · intro cts
      simp [check_if_country_state_city_exists, hg,
        show lookupCountry { db with cities := cts } f v = some country from hc,
        show lookupState { db with cities := cts } a.state country.id = none
          from hs]

/-- C6 witness: sequential reporting on the concrete database, for an
unknown country (states and cities never consulted) and for an unknown
state under a resolved country (cities never consulted). -/
theorem c6_witness :
    check_if_country_state_city_exists db0 a_noCountry ship1 =
      .error (.countryNotFound "Atlantis") ∧
    check_if_country_state_city_exists
      { db0 with states := [], cities := [] } a_noCountry ship1 =
      .error (.countryNotFound "Atlantis") ∧
    check_if_country_state_city_exists db0 a_badState ship1 =
      .error (.stateNotFound "Bavaria") ∧
    check_if_country_state_city_exists { db0 with cities := [] } a_badState ship1 =
      .error (.stateNotFound "Bavaria") := by
  have h1 := (c6_sequential_resolution db0 a_noCountry ship1 .name "Atlantis"
    (by decide)).1 (by decide)
  have h2 := (c6_sequential_resolution db0 a_badState ship1 .name "United States"
    (by decide)).2 country0 (by decide) (by decide)
  exact ⟨h1.1, h1.2 [] [], h2.1, h2.2 []⟩

/-- The validator can never yield a `CarrierNotFoundError` value, for any
database, matcher and input: the branch that would return one crashes
while constructing it. -/
theorem validate_carrier_never_carrier_not_found (db : DB)
    (m : String → String → Bool) (carrierName shipmentNumber : String) :
    producesCarrierNotFound (validate_carrier db m carrierName shipmentNumber) =
      false := by
  unfold validate_carrier
  cases h : db.carriers.find? (fun c => c.name == carrierName) with
  | none => rfl
  | some carrier =>
    by_cases hany :
      carrier.regex_tracking_number.any (fun p => m p shipmentNumber) = true
    · simp [hany, producesCarrierNotFound]
    · simp only [Bool.not_eq_true] at hany
      simp [hany, producesCarrierNotFound]

/-- C3: the claim says an unknown carrier name fails the validator with
`CarrierNotFoundError(carrier_name)`.  It cannot: constructing that
exception raises `TypeError` (its `detail` is a set holding an
unhashable dict), so the unknown-carrier branch crashes the coroutine
instead — shown here at a concrete unregistered name.  The rest of the
claim is correct of the code, shown at concrete inputs: with a matching
pattern the carrier row is returned, and when no pattern matches the
shipment number at position 0 the mismatch error object is returned. -/
theorem c3_carrier_crash_eval :
    validate_carrier db0 m0 "nope" "123" = .error .typeError ∧
    producesCarrierNotFound (validate_carrier db0 m0 "nope" "123") = false ∧
    validate_carrier db0 m0 "ups" "111" = .ok (.ok ups0) ∧
    validate_carrier db0 (fun _ _ => false) "ups" "123" =
      .ok (.error (.shipmentNumberMismatch "ups" "123")) := by decide

/-- C4 counterexample: a country selector supplying two fields (name and
iso2) passes the `CountryOneField` validation instead of failing — the
model validator only rejects the zero-field case — and resolution then
proceeds with the first field, succeeding against `db0`. -/
theorem c4_counterexample :
    validateCountryOneField cf_two =
      .ok { name := some "United States", code := none,
            iso2 := some "US", iso3 := none } ∧
    resolveCountry db0 cf_two = .ok country0 := by decide

/-- C4 (amended): the validator fails with `CountryParametrError` exactly
when, after the uppercase before-validator, no selector field is truthy —
so zero selectors fail before any lookup, but supplying more than one
selector is accepted, and the first truthy field in the declaration order
name, code, iso2, iso3 is the one used for the lookup. -/
theorem c4_selector_validation (c : CountryOneField) :
    (validateCountryOneField c = .error .countryParametr ↔
      (truthy (uppercase_country_code c).name = false ∧
       truthy (uppercase_country_code c).code = false ∧
       truthy (uppercase_country_code c).iso2 = false ∧
       truthy (uppercase_country_code c).iso3 = false)) ∧
    (∀ v, (uppercase_country_code c).name = some v → v ≠ "" →
      validateCountryOneField c = .ok (uppercase_country_code c) ∧
      get_search_params (uppercase_country_code c) = some (.name, v)) := by
  constructor
  · constructor
    · intro he
      by_cases hcond :
        (truthy (uppercase_country_code c).name ||
          truthy (uppercase_country_code c).code ||
          truthy (uppercase_country_code c).iso2 ||
          truthy (uppercase_country_code c).iso3) = true
      · rw [show validateCountryOneField c = .ok (uppercase_country_code c) by
            simp [validateCountryOneField, check_if_no_search_params, hcond]]
          at he
        exact absurd he (by simp)
      · have h' := by simpa [Bool.or_eq_true] using hcond
        exact ⟨h'.1.1.1, h'.1.1.2, h'.1.2, h'.2⟩
    · intro ⟨h1, h2, h3, h4⟩
      simp [validateCountryOneField, check_if_no_search_params, h1, h2, h3, h4]
  · intro v hv hvne
    have ht : truthy (uppercase_country_code c).name = true := by
      rw [hv]
      simp [truthy, hvne]
    constructor
    · simp [validateCountryOneField, check_if_no_search_params, ht]
    · simp [get_search_params, first_truthy, hv, hvne]

/-- C4 witness: the amended statement applied to a selector with no
truthy field (rejected) and to the two-field selector `cf_two`
(accepted, resolved through its first field). -/
theorem c4_amended_witness :
    validateCountryOneField cf_none = .error .countryParametr ∧
    validateCountryOneField cf_two = .ok cf_up ∧
    get_search_params cf_up = some (.name, "United States") := by
  have h1 := (c4_selector_validation cf_none).1.mpr (by decide)
  have h2 := (c4_selector_validation cf_two).2 "United States"
    (by decide) (by decide)
  exact ⟨h1, h2.1, h2.2⟩

/-- C8: resolving a country by any of its valid selector forms — name,
numeric code, iso2 in any letter case, iso3 in any letter case — yields
the same Country row (hence the same id), provided the country's
identifying fields are unique in the reference table and nonempty.  The
case-insensitivity hypotheses say only that the supplied strings
uppercase to the stored codes. -/
theorem c8_selector_agreement (db : DB) (c : Country)
    (hmem : c ∈ db.countries)
    (huniq : ∀ x ∈ db.countries,
      x.name = c.name ∨ x.code = c.code ∨ x.iso2 = c.iso2 ∨ x.iso3 = c.iso3 →
      x = c)
    (hn : c.name ≠ "") (hcode : c.code ≠ "") (h2 : c.iso2 ≠ "")
    (h3 : c.iso3 ≠ "") (v2 v3 : String)
    (hv2 : py_upper v2 = c.iso2) (hv3 : py_upper v3 = c.iso3) :
    resolveCountry db
      { name := some c.name, code := none, iso2 := none, iso3 := none } = .ok c ∧
    resolveCountry db
      { name := none, code := some c.code, iso2 := none, iso3 := none } = .ok c ∧
    resolveCountry db
      { name := none, code := none, iso2 := some v2, iso3 := none } = .ok c ∧
    resolveCountry db
      { name := none, code := none, iso2 := none, iso3 := some v3 } = .ok c := by
  have hfind : ∀ f : CountryField,
      lookupCountry db f (countryField f c) = some c := by
    intro f
    apply find_first_unique hmem
    · simp
    · intro x hx hpx
      have hpx' : countryField f x = countryField f c := by
        simpa using hpx
      apply huniq x hx
      cases f with
      | name => exact Or.inl hpx'
      | code => exact Or.inr (Or.inl hpx')
      | iso2 => exact Or.inr (Or.inr (Or.inl hpx'))
      | iso3 => exact Or.inr (Or.inr (Or.inr hpx'))
  have hv2ne : v2 ≠ "" := by
    intro h
    apply h2
    rw [← hv2, h]
    rfl
  have hv3ne : v3 ≠ "" := by
    intro h
    apply h3
    rw [← hv3, h]
    rfl
  refine ⟨?_, ?_, ?_, ?_⟩
  · have := hfind .name
    simp [resolveCountry, validateCountryOneField, uppercase_country_code,
      check_if_no_search_params, truthy, get_search_params, first_truthy,
      hn, countryField] at this ⊢
    simp [this]
  · have := hfind .code
    simp [resolveCountry, validateCountryOneField, uppercase_country_code,
      check_if_no_search_params, truthy, get_search_params, first_truthy,
      hcode, countryField] at this ⊢
    simp [this]
  · have := hfind .iso2
    simp [resolveCountry, validateCountryOneField, uppercase_country_code,
      check_if_no_search_params, truthy, get_search_params, first_truthy,
      hv2ne, hv2, h2, countryField] at this ⊢
    simp [this]
  · have := hfind .iso3
    simp [resolveCountry, validateCountryOneField, uppercase_country_code,
      check_if_no_search_params, truthy, get_search_params, first_truthy,
      hv3ne, hv3, h3, countryField] at this ⊢
    simp [this]

/-- C8 witness: all four selector forms of `country0` — including
lowercase "us" and "usa" — resolve to the same row in `db0`. -/
theorem c8_witness :
    resolveCountry db0 cf_name = .ok country0 ∧
    resolveCountry db0 cf_code = .ok country0 ∧
    resolveCountry db0 cf_iso2 = .ok country0 ∧
    resolveCountry db0 cf_iso3 = .ok country0 := by
  exact c8_selector_agreement db0 country0 (by decide) (by decide)
    (by decide) (by decide) (by decide) (by decide) "us" "usa"
    (by decide) (by decide)

/-- C7: listing pagination.  The query layer uses
`offset = (page-1) * limit`: a page beyond the available data returns an
empty record set with the correct nonzero total.  At the HTTP layer a
zero total yields the generic "No shipments found." 404; an empty window
with a nonzero total yields "No more shipments found." when page > 1 and
the generic message when page = 1, so the two empty outcomes are
distinguishable. -/
theorem c7_pagination (records : List Shipment) (page limit : Nat) :
    (records ≠ [] → records.length ≤ (page - 1) * limit →
      retrive_shipments_from_db records page limit = ([], records.length)) ∧
    (records.length = 0 →
      retrive_shipments records page limit = .notFound "No shipments found.") ∧
    (records ≠ [] → (records.drop ((page - 1) * limit)).take limit = [] →
      1 < page →
      retrive_shipments records page limit =
        .notFound "No more shipments found.") ∧
    (records ≠ [] → (records.drop ((page - 1) * limit)).take limit = [] →
      page = 1 →
      retrive_shipments records page limit = .notFound "No shipments found.") := by
  refine ⟨?_, ?_, ?_, ?_⟩
  · intro hne hle
    have hdrop : records.drop ((page - 1) * limit) = [] :=
      List.drop_eq_nil_of_le hle
    simp [retrive_shipments_from_db, List.length_eq_zero, hne, hdrop]
  · intro h0
    simp [retrive_shipments, retrive_shipments_from_db, h0]
  · intro hne hwin hpage
    simp [retrive_shipments, retrive_shipments_from_db, List.length_eq_zero,
      hne, hwin, hpage]
  · intro hne hwin hpage
    subst hpage
    have hwin' : records.take limit = [] := by simpa using hwin
    simp [retrive_shipments, retrive_shipments_from_db, List.length_eq_zero,
      hne, hwin']

/-- C7 witness: with 3 shipments, page 5 and limit 10 the query layer
returns the empty window with total 3 and the endpoint answers the
"No more shipments found." 404, while an empty table answers the generic
"No shipments found." 404. -/
theorem c7_witness :
    retrive_shipments_from_db records3 5 10 = ([], 3) ∧
    retrive_shipments records3 5 10 = .notFound "No more shipments found." ∧
    retrive_shipments ([] : List Shipment) 1 10 =
      .notFound "No shipments found." := by
  refine ⟨?_, ?_, ?_⟩
  · exact (c7_pagination records3 5 10).1 (by decide) (by decide)
  · exact (c7_pagination records3 5 10).2.2.1 (by decide) (by decide) (by decide)
  · exact (c7_pagination [] 1 10).2.1 (by decide)

/-- C9: persistence of a batch is all-or-nothing.  The staging loop runs
inside one shared transaction committed once at the end, so when any
step fails the returned store is the unchanged snapshot (no address,
shipment or package of any submission survives), and on success the
store has gained exactly one address and one shipment per submission,
all their packages, and the reported count equals the batch size. -/
theorem c9_transactional_batch (items : List AddressId)
    (carriers : List CarrierSlot) (st : Store) (fresh : Nat) :
    (∀ e, (create_shipment_in_db items carriers st fresh).2.2 = .error e →
      (create_shipment_in_db items carriers st fresh).1 = st) ∧
    (∀ fetched n,
      (create_shipment_in_db items carriers st fresh).2.2 = .ok (fetched, n) →
      (create_shipment_in_db items carriers st fresh).1.addresses.length =
        st.addresses.length + items.length ∧
      (create_shipment_in_db items carriers st fresh).1.shipments.length =
        st.shipments.length + items.length ∧
      (create_shipment_in_db items carriers st fresh).1.packages.length =
        st.packages.length +
          (items.map (fun it => it.shipment.packages.length)).sum ∧
      n = items.length) := by
  cases hcl : create_loop carriers items st fresh with
  | error e =>
    constructor
    · intro e' _
      simp [create_shipment_in_db, hcl]
    · intro fetched n h
      simp [create_shipment_in_db, hcl] at h
  | ok res =>
    obtain ⟨st', fresh', ids⟩ := res
    have H := create_loop_lengths carriers items st fresh st' fresh' ids hcl
    constructor
    · intro e h
      simp [create_shipment_in_db, hcl] at h
    · intro fetched n h
      simp only [create_shipment_in_db, hcl, Except.ok.injEq, Prod.mk.injEq] at h
      simp only [create_shipment_in_db, hcl]
      have hn : ids.length = n := h.2
      exact ⟨H.1, H.2.1, H.2.2.1, by omega⟩

/-- C9 witness: a batch whose only item has no matching carrier rolls
back to the untouched store, and a valid one-item batch adds exactly one
shipment row. -/
theorem c9_witness :
    (create_shipment_in_db [aid3] [] emptyStore 0).1 = emptyStore ∧
    (create_shipment_in_db [aid1] [.ok ups0] emptyStore 0).1.shipments.length = 1 := by
  constructor
  · exact (c9_transactional_batch [aid3] [] emptyStore 0).1
      (.valueError "bogus") (by decide)
  · exact ((c9_transactional_batch [aid1] [.ok ups0] emptyStore 0).2
      [row1] 1 (by decide)).2.1

/-- C10: in every successful listing response, last_page equals
total / limit + 1 (floor division) and next_page equals page + 1 exactly
when total > page * limit, otherwise null; when total is a nonzero exact
multiple of limit, last_page therefore exceeds the ceiling of
total / limit by one. -/
theorem c10_page_arithmetic (records : List Shipment) (page limit : Nat)
    (p : Nat) (np : Option Nat) (lp l t i : Nat) (rs : List Shipment)
    (h : retrive_shipments records page limit = .ok p np lp l t i rs) :
    p = page ∧ l = limit ∧ t = records.length ∧
    lp = t / limit + 1 ∧
    np = (if page * limit < t then some (page + 1) else none) ∧
    (0 < limit → limit ∣ t → lp = (t + limit - 1) / limit + 1) := by
  by_cases h0 : records = []
  · subst h0
    simp [retrive_shipments, retrive_shipments_from_db] at h
  · by_cases hw : (records.drop ((page - 1) * limit)).take limit = []
    · by_cases hp : page > 1 <;>
        simp [retrive_shipments, retrive_shipments_from_db, List.length_eq_zero,
          h0, hw, hp] at h
    · simp [retrive_shipments, retrive_shipments_from_db, List.length_eq_zero,
        h0, hw, -List.length_take] at h
      obtain ⟨e1, e2, e3, e4, e5, e6, e7⟩ := h
      refine ⟨e1.symm, e4.symm, e5.symm, ?_, ?_, ?_⟩
      · rw [← e3, ← e5]
      · rw [← e2, ← e5]
      · intro hl hd
        rw [ceil_div_eq_of_dvd hl hd, ← e3, ← e5]

/-- C10 witness: the page arithmetic applied to the concrete successful
response for one stored shipment at page 1, limit 10: last_page is
1 / 10 + 1 = 1 and next_page is null because 1 * 10 < 1 fails. -/
theorem c10_witness :
    (1 : Nat) = 1 / 10 + 1 ∧
    (none : Option Nat) = (if 1 * 10 < 1 then some (1 + 1) else none) := by
  have h := c10_page_arithmetic records1 1 10 1 none 1 10 1 1 records1 (by decide)
  exact ⟨h.2.2.2.1, h.2.2.2.2.1⟩

end ShipMgmt
